import Mathlib

/-!
# Shallow embedding of `three/core/renderer/renderer.cpp`

The repository's single source file orchestrates an off-screen OpenGL
renderer: construction (`Renderer::initialize`), scene binding
(`Renderer::set_scene`), a per-object draw pass (`Renderer::render_objects`),
and two readback entry points (`Renderer::render_depth_map`,
`Renderer::render`) that copy the GPU framebuffer into a caller-supplied
array with a vertical row flip.

The embedding below models:
* the data the renderer reads (`Object`, `Scene`, `PerspectiveCamera`) with
  exactly the fields the source dereferences;
* every OpenGL / GLFW call the source issues, as a constructor of `Cmd`,
  so each operation returns the exact command trace it emits, in source order;
* the GL state the claims depend on (`GLState`): the clear-color state, the
  viewport, the framebuffer contents and the host readback buffers;
* the renderer object's own fields (`Renderer`), with `set_scene` and the
  render entry points as explicit state-passing functions.

Floating-point values appearing in the source (`0.0`, `1.0`, `2.0`, clear
color components) are all exactly representable integers; they are embedded
as `Int`.  Framebuffer texel values are abstract `Int` codes: the renderer
never computes with them, it only moves them.

The shader pipelines (`multipass::Main`, `multipass::Depth`) and the GPU
rasterizer they drive are repository components that are not part of the
source file (the spec treats them as "opaque compiled pipelines ...
delegated to an external graphics API").  They are modelled from the spec as
an opaque deterministic per-draw effect, the `Raster` parameter below.
-/

namespace Three

/-- A 4x4 matrix (`glm::mat4`).  The renderer never computes with matrix
entries - it only passes pointers to them as uniforms - so the carrier is a
plain list of entry codes. -/
abbrev Mat4 := List Int

/-- The fields of `base::Object` that `renderer.cpp` dereferences:
`_model_matrix`, `_smoothness`, `_num_faces`. -/
structure Object where
  model_matrix : Mat4
  smoothness : Bool
  num_faces : Int
deriving DecidableEq, Repr

/-- `scene::Scene`: the `_objects` vector. -/
structure Scene where
  objects : List Object
deriving DecidableEq, Repr

/-- `camera::PerspectiveCamera`: `_view_matrix` and `_projection_matrix`. -/
structure PerspectiveCamera where
  view_matrix : Mat4
  projection_matrix : Mat4
deriving DecidableEq, Repr

/-- An RGB texel (the three channels `glReadPixels(GL_RGB)` returns). -/
structure RGB where
  r : Int
  g : Int
  b : Int
deriving DecidableEq, Repr

/-- An RGBA clear-color value (the four arguments of `glClearColor`). -/
structure RGBA where
  r : Int
  g : Int
  b : Int
  a : Int
deriving DecidableEq, Repr

/-- The RGB part of an RGBA color. -/
def RGBA.rgb (c : RGBA) : RGB := ⟨c.r, c.g, c.b⟩

/-- One GL / GLFW call issued by `renderer.cpp`, in a deep-embedded trace.
Each constructor corresponds to one call site's API function. -/
inductive Cmd where
  | makeContextCurrent (window : Nat)
  | viewport (x y w h : Int)
  | clear
  | clearColor (c : RGBA)
  | vaoBuild (objs : List Object)
  | bindObject (slot : Nat)
  | uniformMatrix (loc : Nat) (m : Mat4)
  | uniformFloat (loc : Nat) (v : Int)
  | drawTriangles (first count : Int)
  | useMainProgram
  | useDepthProgram
  | useProgramZero
  | enableBlend
  | enableCullFace
  | enableDepthTest
  | blendFuncSrcAlphaOneMinusSrcAlpha
  | pixelStoreiPackAlignment (n : Int)
  | bindRenderbuffer (id : Nat)
  | framebufferDepthAttachment (id : Nat)
  | framebufferColorAttachment (id : Nat)
  | readPixelsDepth
  | readPixelsRGB
  | bindVertexArrayZero
  | destroyWindow (window : Nat)
  | glfwTerminate
deriving DecidableEq, Repr

/-- The `Renderer` object's own fields, as set by `Renderer::initialize`:
`_width`, `_height`, the two readback allocations' sizes, `_prev_num_objects`,
`_window`, `_render_buffer`, `_scene` (a nullable non-owning pointer) and the
geometry binding `_vao` holds (the object list it was last built from; an
unbuilt binding is the empty list). -/
structure Renderer where
  width : Int
  height : Int
  depth_buffer_size : Int
  color_buffer_size : Int
  prev_num_objects : Int
  window : Nat
  render_buffer : Nat
  scene : Option Scene
  vao : List Object
deriving Repr

/-- One triangle draw call as `render_objects` issues it: the geometry bound
from the vao slot, the four uniforms uploaded just before `glDrawArrays`,
and the `glDrawArrays` arguments. -/
structure DrawCall where
  geometry : Option Object
  model : Mat4
  view : Mat4
  projection : Mat4
  smoothness : Int
  first : Int
  count : Int
deriving DecidableEq, Repr

/-- Contents of the render target: the color attachment and the depth
attachment, indexed by (row, column) with row 0 the bottom scanline (the
orientation `glReadPixels` reads in).

The color attachment is modelled by its RGB channels only: the readback
format is `GL_RGB` (alpha is never read back), and under the only blend
function the source ever installs, `glBlendFunc(GL_SRC_ALPHA,
GL_ONE_MINUS_SRC_ALPHA)`, both blend factors depend only on the incoming
fragment's alpha, so the alpha stored in the framebuffer never influences
any RGB channel either.  Framebuffer alpha is therefore unobservable
through this renderer; the full RGBA clear-color state is still tracked in
`GLState`. -/
structure FrameBuffer where
  rgb : Nat → Nat → RGB
  depth : Nat → Nat → Int

/-- OpenGL's default clear-color state in a fresh context: (0,0,0,0). -/
def freshClearColor : RGBA := ⟨0, 0, 0, 0⟩

/-- OpenGL's default clear depth (1.0, "full depth"); `renderer.cpp` never
calls `glClearDepth`, so every `glClear(GL_DEPTH_BUFFER_BIT)` uses it. -/
def clearDepthDefault : Int := 1

/-- The slice of OpenGL context state the claims depend on, plus the host
readback arrays `_depth_buffer` / `_color_buffer` (heap memory owned by the
renderer; their contents live here, their allocated sizes are `Renderer`
fields). -/
structure GLState where
  clearColor : RGBA
  viewport : Int × Int × Int × Int
  frame : FrameBuffer
  depth_buffer : Nat → Int
  color_buffer : Nat → Int

/-- Modelled from the spec: the shader pipelines (`multipass::Main`,
`multipass::Depth`) and the rasterizer behind `glDrawArrays` are repository
components outside the source file, described only as "opaque compiled
pipelines" whose work is "delegated to an external graphics API".  A
`Raster` gives the deterministic effect of one draw call on the two
attachments: from the attachment contents before the draw and the draw
call's geometry and uniforms, the attachment contents after it. -/
structure Raster where
  drawRGB : FrameBuffer → DrawCall → Nat → Nat → RGB
  drawDepth : FrameBuffer → DrawCall → Nat → Nat → Int

/-- The framebuffer after one draw call. -/
def applyDraw (raster : Raster) (fb : FrameBuffer) (call : DrawCall) :
    FrameBuffer :=
  { rgb := raster.drawRGB fb call, depth := raster.drawDepth fb call }

/-- The whole modelled state: the renderer's fields, the GL context state,
whether the hidden window has received a close signal
(`glfwWindowShouldClose(_window)`), and the window / GLFW liveness the
teardown paths affect. -/
structure World where
  renderer : Renderer
  gl : GLState
  shouldClose : Bool
  windowAlive : Bool
  glfwInitialized : Bool

/-- `Renderer::initialize(width, height)` (lines 7-38).  `glfwInitOk` is
whether `glfwInit()` succeeds; on failure the constructor throws
`std::runtime_error("Failed to initialize GLFW.")` before assigning any
field, so no renderer value exists on the error path.  On success it stores
the dimensions, allocates `_depth_buffer` with `width * height` `GLfloat`
elements and `_color_buffer` with `width * height * 3` `GLubyte` elements,
sets `_prev_num_objects = -1`, creates the hidden window, the vertex-array
object (unbuilt), both shader programs, and one renderbuffer.  `window` and
`render_buffer` are the handles GLFW / GL return. -/
def initializeRenderer (glfwInitOk : Bool) (window render_buffer : Nat)
    (width height : Int) : Except String Renderer :=
  if !glfwInitOk then
    Except.error "Failed to initialize GLFW."
  else
    Except.ok
      { width := width
        height := height
        depth_buffer_size := width * height
        color_buffer_size := width * height * 3
        prev_num_objects := -1
        window := window
        render_buffer := render_buffer
        scene := none
        vao := [] }

/-- `Renderer::set_scene(scene)` (lines 53-58): make the context current,
store the scene pointer, rebuild the vao from the scene's object list. -/
def setScene (w : World) (s : Scene) : World × List Cmd :=
  ({ w with renderer := { w.renderer with scene := some s, vao := s.objects } },
   [Cmd.makeContextCurrent w.renderer.window, Cmd.vaoBuild s.objects])

/-- The six commands the body of the `render_objects` loop issues for the
object at index `i` (lines 74-81): bind the vao slot, upload the model /
view / projection matrices to uniform locations 0-2, upload the smoothness
float (`_smoothness ? 1.0 : 0.0`) to location 3, and draw
`3 * _num_faces` vertices starting at 0. -/
def objectDrawCmds (camera : PerspectiveCamera) (i : Nat) (obj : Object) :
    List Cmd :=
  [Cmd.bindObject i,
   Cmd.uniformMatrix 0 obj.model_matrix,
   Cmd.uniformMatrix 1 camera.view_matrix,
   Cmd.uniformMatrix 2 camera.projection_matrix,
   Cmd.uniformFloat 3 (if obj.smoothness then 1 else 0),
   Cmd.drawTriangles 0 (3 * obj.num_faces)]

/-- The draw calls the loop issues: for index `i`, the geometry is vao
slot `i` and the uniforms come from `_scene->_objects[i]` and the camera. -/
def drawCalls (vao : List Object) (camera : PerspectiveCamera)
    (objects : List Object) : List DrawCall :=
  objects.enum.map fun p =>
    { geometry := vao[p.1]?
      model := p.2.model_matrix
      view := camera.view_matrix
      projection := camera.projection_matrix
      smoothness := if p.2.smoothness then 1 else 0
      first := 0
      count := 3 * p.2.num_faces }

/-- The framebuffer `render_objects` leaves behind: both attachments cleared
by `glClear` - the color attachment with the clear-color state in effect at
that moment, the depth attachment with the (never changed) default clear
depth - then the per-object draw calls folded over it. -/
def passFrameBuffer (raster : Raster) (clearCol : RGBA) (vao : List Object)
    (camera : PerspectiveCamera) (objects : List Object) : FrameBuffer :=
  (drawCalls vao camera objects).foldl (applyDraw raster)
    { rgb := fun _ _ => clearCol.rgb, depth := fun _ _ => clearDepthDefault }

/-- The GL state after `render_objects`: viewport set to
(0,0,width,height), clear-color state left at the (0,0,0,1) installed by
`glClearColor` after the clear, framebuffer as `passFrameBuffer`. -/
def passGL (raster : Raster) (gl : GLState) (width height : Int)
    (vao : List Object) (camera : PerspectiveCamera)
    (objects : List Object) : GLState :=
  { gl with
    viewport := (0, 0, width, height)
    clearColor := ⟨0, 0, 0, 1⟩
    frame := passFrameBuffer raster gl.clearColor vao camera objects }

/-- The command trace `render_objects` emits, in source order: make the
context current, set the viewport, `glClear`, `glClearColor(0,0,0,1)`, then
the six per-object commands for each object index in order. -/
def passCmds (window : Nat) (width height : Int)
    (camera : PerspectiveCamera) (objects : List Object) : List Cmd :=
  [Cmd.makeContextCurrent window,
   Cmd.viewport 0 0 width height,
   Cmd.clear,
   Cmd.clearColor ⟨0, 0, 0, 1⟩]
  ++ objects.enum.flatMap fun p => objectDrawCmds camera p.1 p.2

/-- The world after a `render_objects` pass over scene `s`: only the GL
state changes, to `passGL`. -/
def passWorld (raster : Raster) (w : World) (camera : PerspectiveCamera)
    (s : Scene) : World :=
  { w with gl := (passGL raster w.gl w.renderer.width w.renderer.height
      w.renderer.vao camera s.objects) }

/-- `Renderer::render_objects(camera)` (lines 59-83).  Returns `none` when
`_scene` is null (the source dereferences it unconditionally; the spec calls
this undefined behavior).  Otherwise: make the context current, set the
viewport to (0,0,_width,_height), `glClear` both attachments - using the
clear-color state currently in effect, since `glClearColor(0.0,0.0,0.0,1.0)`
is only issued on the following line - then run the per-object loop. -/
def renderObjects (raster : Raster) (w : World) (camera : PerspectiveCamera) :
    Option (World × List Cmd) :=
  match w.renderer.scene with
  | none => none
  | some s =>
    some (passWorld raster w camera s,
          passCmds w.renderer.window w.renderer.width w.renderer.height
            camera s.objects)

/-- The teardown the close-signal branch performs (lines 88-92 / 121-125):
`glfwDestroyWindow(_window); glfwTerminate();` and return.  No `Renderer`
field is assigned. -/
def closeBranch (w : World) : World × List Cmd :=
  ({ w with windowAlive := false, glfwInitialized := false },
   [Cmd.destroyWindow w.renderer.window, Cmd.glfwTerminate])

/-- `Renderer::~Renderer()` (lines 48-52): unconditionally
`glfwDestroyWindow(_window); glfwTerminate();`. -/
def destructor (w : World) : World × List Cmd :=
  ({ w with windowAlive := false, glfwInitialized := false },
   [Cmd.destroyWindow w.renderer.window, Cmd.glfwTerminate])

/-- `glReadPixels(0,0,_width,_height,GL_DEPTH_COMPONENT,GL_FLOAT,
_depth_buffer.get())`: the first `H * W` elements of the host depth buffer
are overwritten with the depth attachment, row-major from the bottom
scanline; elements past `H * W` keep their previous contents. -/
def depthReadback (H W : Nat) (fd : Nat → Nat → Int) (old : Nat → Int) :
    Nat → Int :=
  fun i => if i < H * W then fd (i / W) (i % W) else old i

/-- The double loop of lines 107-111: for every `h < H`, `v < W` the output
element `(h, v)` is assigned `buf[(H - h - 1) * W + v]`; every other element
keeps its previous contents. -/
def flipCopyDepth (H W : Nat) (buf : Nat → Int) (old : Nat → Nat → Int) :
    Nat → Nat → Int :=
  fun h v => if h < H ∧ v < W then buf ((H - h - 1) * W + v) else old h v

/-- `glReadPixels(0,0,_width,_height,GL_RGB,GL_UNSIGNED_BYTE,
_color_buffer.get())`: the first `H * W * 3` bytes of the host color buffer
are overwritten with the color attachment, 3 channels per pixel in R,G,B
order, pixels row-major from the bottom scanline (pack alignment 1). -/
def colorReadback (H W : Nat) (fc : Nat → Nat → RGB) (old : Nat → Int) :
    Nat → Int :=
  fun i =>
    if i < H * W * 3 then
      let px := fc (i / 3 / W) (i / 3 % W)
      if i % 3 = 0 then px.r else if i % 3 = 1 then px.g else px.b
    else old i

/-- The triple-indexed copy of lines 142-148: for every `h < H`, `v < W`
and channel `c < 3`, output element `(h, v, c)` is assigned
`buf[(H - h - 1) * W * 3 + v * 3 + c]`; every other element keeps its
previous contents. -/
def flipCopyColor (H W : Nat) (buf : Nat → Int)
    (old : Nat → Nat → Nat → Int) : Nat → Nat → Nat → Int :=
  fun h v c =>
    if h < H ∧ v < W ∧ c < 3 then buf ((H - h - 1) * W * 3 + v * 3 + c)
    else old h v c

/-- `Renderer::render_depth_map(camera, np_depth_map)` (lines 84-116).
The caller's `np_depth_map` is a row-major `[height, width]` array, modelled
as a total function; indices outside the loop ranges are untouched.  If the
window should close: tear down and return with the output untouched.
Otherwise: activate the main program, enable blend / cull / depth test, set
the blend function, bind `_render_buffer` and attach it as the depth
attachment, run `render_objects`, read back the depth attachment into
`_depth_buffer`, flip-copy it into `np_depth_map`, then unbind program /
vertex array / renderbuffer. -/
def renderDepthMap (raster : Raster) (w : World) (camera : PerspectiveCamera)
    (np_depth_map : Nat → Nat → Int) :
    Option (World × (Nat → Nat → Int) × List Cmd) :=
  if w.shouldClose then
    let t := closeBranch w
    some (t.1, np_depth_map, t.2)
  else
    match renderObjects raster w camera with
    | none => none
    | some (w1, pass) =>
      let H := w1.renderer.height.toNat
      let W := w1.renderer.width.toNat
      let dbuf := depthReadback H W w1.gl.frame.depth w1.gl.depth_buffer
      some ({ w1 with gl := { w1.gl with depth_buffer := dbuf } },
        flipCopyDepth H W dbuf np_depth_map,
        [Cmd.useMainProgram, Cmd.enableBlend, Cmd.enableCullFace,
         Cmd.enableDepthTest, Cmd.blendFuncSrcAlphaOneMinusSrcAlpha,
         Cmd.bindRenderbuffer w.renderer.render_buffer,
         Cmd.framebufferDepthAttachment w.renderer.render_buffer]
        ++ pass
        ++ [Cmd.readPixelsDepth, Cmd.useProgramZero, Cmd.bindVertexArrayZero,
            Cmd.bindRenderbuffer 0])

/-- `Renderer::render(camera, np_rgb_map)` (lines 117-153).  The caller's
`np_rgb_map` is a row-major `[height, width, 3]` array of unsigned ints;
assigning a `GLubyte` to an element is a value-preserving widening.  Same
close-signal branch; otherwise activate the main program, enable blend /
cull / depth test, set the blend function, set pack alignment 1 and the
viewport, bind `_render_buffer` and attach it as the color attachment, run
`render_objects`, `glReadPixels(GL_RGB)` into `_color_buffer` (3 bytes per
pixel, row-major from the bottom scanline), copy
`_color_buffer[(_height - h - 1) * _width * 3 + w * 3 + c]` into
`np_rgb_map(h, w, c)` for `h < _height`, `w < _width`, `c` in 0,1,2, then
unbind. -/
def render (raster : Raster) (w : World) (camera : PerspectiveCamera)
    (np_rgb_map : Nat → Nat → Nat → Int) :
    Option (World × (Nat → Nat → Nat → Int) × List Cmd) :=
  if w.shouldClose then
    let t := closeBranch w
    some (t.1, np_rgb_map, t.2)
  else
    match renderObjects raster w camera with
    | none => none
    | some (w1, pass) =>
      let H := w1.renderer.height.toNat
      let W := w1.renderer.width.toNat
      let cbuf := colorReadback H W w1.gl.frame.rgb w1.gl.color_buffer
      some ({ w1 with gl := { w1.gl with color_buffer := cbuf } },
        flipCopyColor H W cbuf np_rgb_map,
        [Cmd.useMainProgram, Cmd.enableBlend, Cmd.enableCullFace,
         Cmd.enableDepthTest, Cmd.blendFuncSrcAlphaOneMinusSrcAlpha,
         Cmd.pixelStoreiPackAlignment 1,
         Cmd.viewport 0 0 w.renderer.width w.renderer.height,
         Cmd.bindRenderbuffer w.renderer.render_buffer,
         Cmd.framebufferColorAttachment w.renderer.render_buffer]
        ++ pass
        ++ [Cmd.readPixelsRGB, Cmd.useProgramZero, Cmd.bindVertexArrayZero,
            Cmd.bindRenderbuffer 0])

/-- The scene-accepting overload of `render_depth_map` (lines 154-159):
`set_scene(scene); render_depth_map(camera, np_depth_map);`. -/
def renderDepthMapWithScene (raster : Raster) (w : World) (s : Scene)
    (camera : PerspectiveCamera) (np_depth_map : Nat → Nat → Int) :
    Option (World × (Nat → Nat → Int) × List Cmd) :=
  (renderDepthMap raster (setScene w s).1 camera np_depth_map).map fun r =>
    (r.1, r.2.1, (setScene w s).2 ++ r.2.2)

/-- The scene-accepting overload of `render` (lines 160-165):
`set_scene(scene); render(camera, np_rgb_map);`. -/
def renderWithScene (raster : Raster) (w : World) (s : Scene)
    (camera : PerspectiveCamera) (np_rgb_map : Nat → Nat → Nat → Int) :
    Option (World × (Nat → Nat → Nat → Int) × List Cmd) :=
  (render raster (setScene w s).1 camera np_rgb_map).map fun r =>
    (r.1, r.2.1, (setScene w s).2 ++ r.2.2)

/-! ## Named run results

The open (non-close) branches of `render_depth_map` and `render`, spelled
out so that run lemmas and claims can name their parts. -/

/-- The host depth buffer after the open branch of `render_depth_map`. -/
def depthRunBuf (raster : Raster) (w : World) (camera : PerspectiveCamera)
    (s : Scene) : Nat → Int :=
  depthReadback w.renderer.height.toNat w.renderer.width.toNat
    (passFrameBuffer raster w.gl.clearColor w.renderer.vao camera
      s.objects).depth
    w.gl.depth_buffer

/-- The world after the open branch of `render_depth_map`. -/
def depthRunWorld (raster : Raster) (w : World) (camera : PerspectiveCamera)
    (s : Scene) : World :=
  { passWorld raster w camera s with
    gl := { (passWorld raster w camera s).gl with
            depth_buffer := depthRunBuf raster w camera s } }

/-- The trace of the open branch of `render_depth_map`. -/
def depthRunCmds (w : World) (camera : PerspectiveCamera) (s : Scene) :
    List Cmd :=
  [Cmd.useMainProgram, Cmd.enableBlend, Cmd.enableCullFace,
   Cmd.enableDepthTest, Cmd.blendFuncSrcAlphaOneMinusSrcAlpha,
   Cmd.bindRenderbuffer w.renderer.render_buffer,
   Cmd.framebufferDepthAttachment w.renderer.render_buffer]
  ++ passCmds w.renderer.window w.renderer.width w.renderer.height camera
       s.objects
  ++ [Cmd.readPixelsDepth, Cmd.useProgramZero, Cmd.bindVertexArrayZero,
      Cmd.bindRenderbuffer 0]

/-- The host color buffer after the open branch of `render`. -/
def colorRunBuf (raster : Raster) (w : World) (camera : PerspectiveCamera)
    (s : Scene) : Nat → Int :=
  colorReadback w.renderer.height.toNat w.renderer.width.toNat
    (passFrameBuffer raster w.gl.clearColor w.renderer.vao camera
      s.objects).rgb
    w.gl.color_buffer

/-- The world after the open branch of `render`. -/
def colorRunWorld (raster : Raster) (w : World) (camera : PerspectiveCamera)
    (s : Scene) : World :=
  { passWorld raster w camera s with
    gl := { (passWorld raster w camera s).gl with
            color_buffer := colorRunBuf raster w camera s } }

/-- The trace of the open branch of `render`. -/
def colorRunCmds (w : World) (camera : PerspectiveCamera) (s : Scene) :
    List Cmd :=
  [Cmd.useMainProgram, Cmd.enableBlend, Cmd.enableCullFace,
   Cmd.enableDepthTest, Cmd.blendFuncSrcAlphaOneMinusSrcAlpha,
   Cmd.pixelStoreiPackAlignment 1,
   Cmd.viewport 0 0 w.renderer.width w.renderer.height,
   Cmd.bindRenderbuffer w.renderer.render_buffer,
   Cmd.framebufferColorAttachment w.renderer.render_buffer]
  ++ passCmds w.renderer.window w.renderer.width w.renderer.height camera
       s.objects
  ++ [Cmd.readPixelsRGB, Cmd.useProgramZero, Cmd.bindVertexArrayZero,
      Cmd.bindRenderbuffer 0]

/-! ## Run lemmas -/

theorem renderObjects_eq (raster : Raster) (w : World)
    (camera : PerspectiveCamera) (s : Scene)
    (hs : w.renderer.scene = some s) :
    renderObjects raster w camera =
      some (passWorld raster w camera s,
            passCmds w.renderer.window w.renderer.width w.renderer.height
              camera s.objects) := by
  unfold renderObjects
  rw [hs]

theorem renderDepthMap_eq (raster : Raster) (w : World)
    (camera : PerspectiveCamera) (s : Scene) (dout : Nat → Nat → Int)
    (hclose : w.shouldClose = false) (hs : w.renderer.scene = some s) :
    renderDepthMap raster w camera dout =
      some (depthRunWorld raster w camera s,
            flipCopyDepth w.renderer.height.toNat w.renderer.width.toNat
              (depthRunBuf raster w camera s) dout,
            depthRunCmds w camera s) := by
  unfold renderDepthMap
  rw [hclose, renderObjects_eq raster w camera s hs]
  rfl

theorem render_eq (raster : Raster) (w : World)
    (camera : PerspectiveCamera) (s : Scene)
    (cout : Nat → Nat → Nat → Int)
    (hclose : w.shouldClose = false) (hs : w.renderer.scene = some s) :
    render raster w camera cout =
      some (colorRunWorld raster w camera s,
            flipCopyColor w.renderer.height.toNat w.renderer.width.toNat
              (colorRunBuf raster w camera s) cout,
            colorRunCmds w camera s) := by
  unfold render
  rw [hclose, renderObjects_eq raster w camera s hs]
  rfl

theorem renderDepthMap_closed_eq (raster : Raster) (w : World)
    (camera : PerspectiveCamera) (dout : Nat → Nat → Int)
    (hclose : w.shouldClose = true) :
    renderDepthMap raster w camera dout =
      some ((closeBranch w).1, dout,
            [Cmd.destroyWindow w.renderer.window, Cmd.glfwTerminate]) := by
  unfold renderDepthMap
  rw [hclose]
  rfl

theorem render_closed_eq (raster : Raster) (w : World)
    (camera : PerspectiveCamera) (cout : Nat → Nat → Nat → Int)
    (hclose : w.shouldClose = true) :
    render raster w camera cout =
      some ((closeBranch w).1, cout,
            [Cmd.destroyWindow w.renderer.window, Cmd.glfwTerminate]) := by
  unfold render
  rw [hclose]
  rfl

theorem renderObjects_none (raster : Raster) (w : World)
    (camera : PerspectiveCamera) (hs : w.renderer.scene = none) :
    renderObjects raster w camera = none := by
  unfold renderObjects
  rw [hs]

/-- Neither branch of `render_depth_map` assigns any `Renderer` field. -/
theorem renderDepthMap_renderer (raster : Raster) (w : World)
    (camera : PerspectiveCamera) (dout : Nat → Nat → Int)
    (r : World × (Nat → Nat → Int) × List Cmd)
    (h : renderDepthMap raster w camera dout = some r) :
    r.1.renderer = w.renderer := by
  cases hb : w.shouldClose with
  | true =>
    rw [renderDepthMap_closed_eq raster w camera dout hb] at h
    cases h
    rfl
  | false =>
    cases hs : w.renderer.scene with
    | none =>
      rw [renderDepthMap, hb] at h
      rw [renderObjects_none raster w camera hs] at h
      simp at h
    | some s =>
      rw [renderDepthMap_eq raster w camera s dout hb hs] at h
      cases h
      rfl

/-- Neither branch of `render` assigns any `Renderer` field. -/
theorem render_renderer (raster : Raster) (w : World)
    (camera : PerspectiveCamera) (cout : Nat → Nat → Nat → Int)
    (r : World × (Nat → Nat → Nat → Int) × List Cmd)
    (h : render raster w camera cout = some r) :
    r.1.renderer = w.renderer := by
  cases hb : w.shouldClose with
  | true =>
    rw [render_closed_eq raster w camera cout hb] at h
    cases h
    rfl
  | false =>
    cases hs : w.renderer.scene with
    | none =>
      rw [render, hb] at h
      rw [renderObjects_none raster w camera hs] at h
      simp at h
    | some s =>
      rw [render_eq raster w camera s cout hb hs] at h
      cases h
      rfl

/-- `render_objects` assigns no `Renderer` field. -/
theorem renderObjects_renderer (raster : Raster) (w : World)
    (camera : PerspectiveCamera) (r : World × List Cmd)
    (h : renderObjects raster w camera = some r) :
    r.1.renderer = w.renderer := by
  cases hs : w.renderer.scene with
  | none => rw [renderObjects_none raster w camera hs] at h; simp at h
  | some s => rw [renderObjects_eq raster w camera s hs] at h; cases h; rfl

/-! ## Concrete fixtures (used by witnesses and counterexamples) -/

/-- A concrete rasterizer: every draw call paints constant texels. -/
def raster0 : Raster :=
  { drawRGB := fun _ _ _ _ => ⟨7, 8, 9⟩
    drawDepth := fun _ _ _ _ => 5 }

def camera0 : PerspectiveCamera :=
  { view_matrix := [10], projection_matrix := [20] }

def obj0 : Object :=
  { model_matrix := [30], smoothness := true, num_faces := 2 }

def scene0 : Scene := { objects := [obj0] }

def sceneEmpty : Scene := { objects := [] }

def fb0 : FrameBuffer :=
  { rgb := fun _ _ => ⟨0, 0, 0⟩, depth := fun _ _ => 0 }

/-- A fresh GL context: default clear color, zeroed host buffers. -/
def gl0 : GLState :=
  { clearColor := freshClearColor
    viewport := (0, 0, 0, 0)
    frame := fb0
    depth_buffer := fun _ => 0
    color_buffer := fun _ => 0 }

/-- The renderer `Renderer::initialize(glfwInitOk := true, 2, 2)` builds
(window handle 1, renderbuffer 6), before any `set_scene`. -/
def rInit : Renderer :=
  { width := 2, height := 2, depth_buffer_size := 4, color_buffer_size := 12
    prev_num_objects := -1, window := 1, render_buffer := 6
    scene := none, vao := [] }

def renderer0 : Renderer :=
  { rInit with scene := some scene0, vao := [obj0] }

def world0 : World :=
  { renderer := renderer0, gl := gl0, shouldClose := false
    windowAlive := true, glfwInitialized := true }

def worldClosed : World := { world0 with shouldClose := true }

def worldEmpty : World :=
  { world0 with renderer := { rInit with scene := some sceneEmpty } }

def dout0 : Nat → Nat → Int := fun _ _ => 0

def cout0 : Nat → Nat → Nat → Int := fun _ _ _ => 0

def cout1 : Nat → Nat → Nat → Int := fun _ _ _ => 1

/-! ## Claims -/

/-- C3: when the rendering surface has received a close signal, `render`
and `render_depth_map` tear down the surface and context (and nothing
else), return normally (a value, no error), emit no drawing command, and
return the caller-supplied output buffer exactly as given - the returned
world differs from the input only in window / GLFW liveness, so the GL
state and every renderer field are untouched. -/
theorem close_signal_teardown_and_noop (raster : Raster) (w : World)
    (camera : PerspectiveCamera) (dout : Nat → Nat → Int)
    (cout : Nat → Nat → Nat → Int) (hclose : w.shouldClose = true) :
    renderDepthMap raster w camera dout =
      some ({ w with windowAlive := false, glfwInitialized := false }, dout,
            [Cmd.destroyWindow w.renderer.window, Cmd.glfwTerminate]) ∧
    render raster w camera cout =
      some ({ w with windowAlive := false, glfwInitialized := false }, cout,
            [Cmd.destroyWindow w.renderer.window, Cmd.glfwTerminate]) :=
  ⟨renderDepthMap_closed_eq raster w camera dout hclose,
   render_closed_eq raster w camera cout hclose⟩

theorem close_signal_teardown_and_noop_witness :
    worldClosed.shouldClose = true ∧
    (renderDepthMap raster0 worldClosed camera0 dout0 =
      some ({ worldClosed with windowAlive := false, glfwInitialized := false },
            dout0,
            [Cmd.destroyWindow worldClosed.renderer.window, Cmd.glfwTerminate]) ∧
     render raster0 worldClosed camera0 cout0 =
      some ({ worldClosed with windowAlive := false, glfwInitialized := false },
            cout0,
            [Cmd.destroyWindow worldClosed.renderer.window, Cmd.glfwTerminate])) :=
  ⟨rfl, close_signal_teardown_and_noop raster0 worldClosed camera0 dout0 cout0 rfl⟩

/-- C5: construction fails with an unrecoverable error exactly when
`glfwInit()` fails; the error path produces no `Renderer` value at all (no
partial construction), and a successful `glfwInit` admits no other error
path. -/
theorem initialize_error_iff_glfw_fails (glfwInitOk : Bool)
    (window render_buffer : Nat) (width height : Int) :
    ((∃ e, initializeRenderer glfwInitOk window render_buffer width height =
        Except.error e) ↔ glfwInitOk = false) ∧
    ((∃ r, initializeRenderer glfwInitOk window render_buffer width height =
        Except.ok r) ↔ glfwInitOk = true) := by
  cases glfwInitOk <;> simp [initializeRenderer]

theorem initialize_error_iff_glfw_fails_witness :
    (∃ e, initializeRenderer false 1 6 2 2 = Except.error e) ∧
    (∃ r, initializeRenderer true 1 6 2 2 = Except.ok r) :=
  ⟨(initialize_error_iff_glfw_fails false 1 6 2 2).1.mpr rfl,
   (initialize_error_iff_glfw_fails true 1 6 2 2).2.mpr rfl⟩

/-- C7: construction allocates the depth buffer with `width * height`
elements and the color buffer with `width * height * 3` elements, and
`set_scene`, `render_objects`, `render_depth_map` and `render` all leave
both allocated sizes unchanged. -/
theorem buffer_sizes_fixed_for_lifetime (window render_buffer : Nat)
    (width height : Int) :
    (∀ r, initializeRenderer true window render_buffer width height =
        Except.ok r →
      r.depth_buffer_size = width * height ∧
      r.color_buffer_size = width * height * 3) ∧
    (∀ w s,
      (setScene w s).1.renderer.depth_buffer_size =
        w.renderer.depth_buffer_size ∧
      (setScene w s).1.renderer.color_buffer_size =
        w.renderer.color_buffer_size) ∧
    (∀ raster w camera r, renderObjects raster w camera = some r →
      r.1.renderer.depth_buffer_size = w.renderer.depth_buffer_size ∧
      r.1.renderer.color_buffer_size = w.renderer.color_buffer_size) ∧
    (∀ raster w camera dout r, renderDepthMap raster w camera dout = some r →
      r.1.renderer.depth_buffer_size = w.renderer.depth_buffer_size ∧
      r.1.renderer.color_buffer_size = w.renderer.color_buffer_size) ∧
    (∀ raster w camera cout r, render raster w camera cout = some r →
      r.1.renderer.depth_buffer_size = w.renderer.depth_buffer_size ∧
      r.1.renderer.color_buffer_size = w.renderer.color_buffer_size) := by
  refine ⟨?_, ?_, ?_, ?_, ?_⟩
  · intro r h
    rw [initializeRenderer] at h
    cases h
    exact ⟨rfl, rfl⟩
  · intro w s
    exact ⟨rfl, rfl⟩
  · intro raster w camera r h
    rw [renderObjects_renderer raster w camera r h]
    exact ⟨rfl, rfl⟩
  · intro raster w camera dout r h
    rw [renderDepthMap_renderer raster w camera dout r h]
    exact ⟨rfl, rfl⟩
  · intro raster w camera cout r h
    rw [render_renderer raster w camera cout r h]
    exact ⟨rfl, rfl⟩

theorem buffer_sizes_fixed_for_lifetime_witness :
    (rInit.depth_buffer_size = 2 * 2 ∧ rInit.color_buffer_size = 2 * 2 * 3) ∧
    ((renderDepthMap raster0 world0 camera0 dout0).get (by rfl)
        |>.1.renderer.depth_buffer_size = world0.renderer.depth_buffer_size) ∧
    ((render raster0 world0 camera0 cout0).get (by rfl)
        |>.1.renderer.color_buffer_size = world0.renderer.color_buffer_size) :=
  ⟨(buffer_sizes_fixed_for_lifetime 1 6 2 2).1 rInit rfl,
   ((buffer_sizes_fixed_for_lifetime 1 6 2 2).2.2.2.1 raster0 world0 camera0
      dout0 _ (Option.some_get (by rfl)).symm).1,
   ((buffer_sizes_fixed_for_lifetime 1 6 2 2).2.2.2.2 raster0 world0 camera0
      cout0 _ (Option.some_get (by rfl)).symm).2⟩

/-- C9: the close-signal branch of `render_depth_map` and `render` mutates
no `Renderer` field - in particular the stored window handle survives and
no torn-down marker exists - so running the destructor afterwards issues
`glfwDestroyWindow` on the same, already destroyed, window a second time:
the combined trace contains two `destroyWindow` commands for that handle. -/
theorem close_branch_leaves_fields_so_destructor_tears_down_twice
    (raster : Raster) (w : World) (camera : PerspectiveCamera)
    (dout : Nat → Nat → Int) (cout : Nat → Nat → Nat → Int)
    (hclose : w.shouldClose = true) :
    ∃ wd dcmds wc ccmds,
      renderDepthMap raster w camera dout = some (wd, dout, dcmds) ∧
      render raster w camera cout = some (wc, cout, ccmds) ∧
      wd.renderer = w.renderer ∧ wc.renderer = w.renderer ∧
      (dcmds ++ (destructor wd).2).count
        (Cmd.destroyWindow w.renderer.window) = 2 ∧
      (ccmds ++ (destructor wc).2).count
        (Cmd.destroyWindow w.renderer.window) = 2 := by
  refine ⟨(closeBranch w).1, _, (closeBranch w).1, _,
    renderDepthMap_closed_eq raster w camera dout hclose,
    render_closed_eq raster w camera cout hclose, rfl, rfl, ?_, ?_⟩ <;>
    simp [destructor, closeBranch, List.count_append, List.count_cons]

theorem close_branch_leaves_fields_so_destructor_tears_down_twice_witness :
    worldClosed.shouldClose = true ∧
    (∃ wd dcmds wc ccmds,
      renderDepthMap raster0 worldClosed camera0 dout0 =
        some (wd, dout0, dcmds) ∧
      render raster0 worldClosed camera0 cout0 = some (wc, cout0, ccmds) ∧
      wd.renderer = worldClosed.renderer ∧
      wc.renderer = worldClosed.renderer ∧
      (dcmds ++ (destructor wd).2).count
        (Cmd.destroyWindow worldClosed.renderer.window) = 2 ∧
      (ccmds ++ (destructor wc).2).count
        (Cmd.destroyWindow worldClosed.renderer.window) = 2) :=
  ⟨rfl, close_branch_leaves_fields_so_destructor_tears_down_twice raster0
    worldClosed camera0 dout0 cout0 rfl⟩

/-- C1: whenever a `render_depth_map` or `render` call reaches readback
(no close signal, scene bound), every in-range element `(h, v)` of the
caller's output buffer equals the internal readback buffer's element at row
`height - 1 - h`, column `v` - for color, channel `c` of output pixel
`(h, v)` equals readback channel `c` of that pixel, in order - with no
other transformation of the values. -/
theorem render_output_is_vertical_flip_of_readback (raster : Raster)
    (w : World) (camera : PerspectiveCamera) (s : Scene)
    (dout : Nat → Nat → Int) (cout : Nat → Nat → Nat → Int)
    (hclose : w.shouldClose = false) (hs : w.renderer.scene = some s) :
    ∃ wd dres dcmds wc cres ccmds,
      renderDepthMap raster w camera dout = some (wd, dres, dcmds) ∧
      render raster w camera cout = some (wc, cres, ccmds) ∧
      (∀ h v, h < w.renderer.height.toNat → v < w.renderer.width.toNat →
        dres h v = wd.gl.depth_buffer
          ((w.renderer.height.toNat - 1 - h) * w.renderer.width.toNat + v)) ∧
      (∀ h v c, h < w.renderer.height.toNat → v < w.renderer.width.toNat →
          c < 3 →
        cres h v c = wc.gl.color_buffer
          ((w.renderer.height.toNat - 1 - h) * w.renderer.width.toNat * 3 +
            v * 3 + c)) := by
  refine ⟨_, _, _, _, _, _,
    renderDepthMap_eq raster w camera s dout hclose hs,
    render_eq raster w camera s cout hclose hs, ?_, ?_⟩
  · intro h v hh hv
    have hsub : w.renderer.height.toNat - 1 - h =
        w.renderer.height.toNat - h - 1 := by omega
    rw [hsub]
    unfold flipCopyDepth
    rw [if_pos ⟨hh, hv⟩]
    rfl
  · intro h v c hh hv hc
    have hsub : w.renderer.height.toNat - 1 - h =
        w.renderer.height.toNat - h - 1 := by omega
    rw [hsub]
    unfold flipCopyColor
    rw [if_pos ⟨hh, hv, hc⟩]
    rfl

theorem render_output_is_vertical_flip_of_readback_witness :
    world0.shouldClose = false ∧ world0.renderer.scene = some scene0 ∧
    (∃ wd dres dcmds wc cres ccmds,
      renderDepthMap raster0 world0 camera0 dout0 = some (wd, dres, dcmds) ∧
      render raster0 world0 camera0 cout0 = some (wc, cres, ccmds) ∧
      (∀ h v, h < world0.renderer.height.toNat →
          v < world0.renderer.width.toNat →
        dres h v = wd.gl.depth_buffer
          ((world0.renderer.height.toNat - 1 - h) *
            world0.renderer.width.toNat + v)) ∧
      (∀ h v c, h < world0.renderer.height.toNat →
          v < world0.renderer.width.toNat → c < 3 →
        cres h v c = wc.gl.color_buffer
          ((world0.renderer.height.toNat - 1 - h) *
            world0.renderer.width.toNat * 3 + v * 3 + c))) :=
  ⟨rfl, rfl, render_output_is_vertical_flip_of_readback raster0 world0
    camera0 scene0 dout0 cout0 rfl rfl⟩

/-- The invariant of claim C6: the geometry binding corresponds to the
most-recently-set scene - whenever a scene is stored, the vao holds exactly
that scene's object list. -/
def sceneBindingInv (w : World) : Prop :=
  ∀ s, w.renderer.scene = some s → w.renderer.vao = s.objects

/-- C6: `set_scene(s)` stores `s` and rebuilds the geometry binding exactly
from `s`'s object list; setting scene A and then scene B yields the very
same state as setting B alone (nothing of A survives), so a following
render pass draws B's objects against a binding built from B's objects; and
the binding invariant holds after `set_scene` and is preserved by
`render_objects`, `render_depth_map` and `render`. -/
theorem set_scene_rebinds_geometry (raster : Raster) (w : World)
    (A B : Scene) (camera : PerspectiveCamera) :
    (setScene w B).1.renderer.scene = some B ∧
    (setScene w B).1.renderer.vao = B.objects ∧
    (setScene (setScene w A).1 B).1 = (setScene w B).1 ∧
    renderObjects raster (setScene w B).1 camera =
      some (passWorld raster (setScene w B).1 camera B,
            passCmds w.renderer.window w.renderer.width w.renderer.height
              camera B.objects) ∧
    (passWorld raster (setScene w B).1 camera B).gl.frame =
      passFrameBuffer raster w.gl.clearColor B.objects camera B.objects ∧
    (∀ w' s', sceneBindingInv (setScene w' s').1) ∧
    (∀ raster' w' camera' r, renderObjects raster' w' camera' = some r →
      sceneBindingInv w' → sceneBindingInv r.1) ∧
    (∀ raster' w' camera' dout r,
      renderDepthMap raster' w' camera' dout = some r →
      sceneBindingInv w' → sceneBindingInv r.1) ∧
    (∀ raster' w' camera' cout r, render raster' w' camera' cout = some r →
      sceneBindingInv w' → sceneBindingInv r.1) := by
  refine ⟨rfl, rfl, rfl,
    renderObjects_eq raster (setScene w B).1 camera B rfl, rfl,
    ?_, ?_, ?_, ?_⟩
  · intro w' s' s h
    cases h
    rfl
  · intro raster' w' camera' r h hinv s hsc
    rw [renderObjects_renderer raster' w' camera' r h] at hsc ⊢
    exact hinv s hsc
  · intro raster' w' camera' dout r h hinv s hsc
    rw [renderDepthMap_renderer raster' w' camera' dout r h] at hsc ⊢
    exact hinv s hsc
  · intro raster' w' camera' cout r h hinv s hsc
    rw [render_renderer raster' w' camera' cout r h] at hsc ⊢
    exact hinv s hsc

theorem set_scene_rebinds_geometry_witness :
    sceneBindingInv world0 ∧
    sceneBindingInv ((renderDepthMap raster0 world0 camera0 dout0).get
      (by rfl)).1 :=
  ⟨fun s h => by cases h; rfl,
   (set_scene_rebinds_geometry raster0 world0 scene0 sceneEmpty
      camera0).2.2.2.2.2.2.2.1 raster0 world0 camera0 dout0 _
     (Option.some_get (by rfl)).symm (fun s h => by cases h; rfl)⟩

/-! ## Trace projections for the per-object protocol (C2) -/

/-- Projects a trace command to the vao slot it binds, if any. -/
def bindSlotOf : Cmd → Option Nat
  | Cmd.bindObject i => some i
  | _ => none

/-- A uniform payload: a matrix or a float. -/
inductive UniformValue where
  | mat (m : Mat4)
  | flt (v : Int)
deriving DecidableEq, Repr

/-- Projects a trace command to the uniform upload it performs, if any. -/
def uniformOf : Cmd → Option (Nat × UniformValue)
  | Cmd.uniformMatrix l m => some (l, UniformValue.mat m)
  | Cmd.uniformFloat l v => some (l, UniformValue.flt v)
  | _ => none

/-- Projects a trace command to the draw call it issues, if any. -/
def drawOf : Cmd → Option (Int × Int)
  | Cmd.drawTriangles f c => some (f, c)
  | _ => none

/-- The four uniform uploads the loop body performs for one object:
model matrix to location 0, view matrix to 1, projection matrix to 2, the
smoothness float to 3. -/
def objectUniforms (camera : PerspectiveCamera) (obj : Object) :
    List (Nat × UniformValue) :=
  [(0, UniformValue.mat obj.model_matrix),
   (1, UniformValue.mat camera.view_matrix),
   (2, UniformValue.mat camera.projection_matrix),
   (3, UniformValue.flt (if obj.smoothness then 1 else 0))]

theorem flatMap_filterMap_bindSlots (camera : PerspectiveCamera) :
    ∀ (objects : List Object) (n : Nat),
      ((objects.enumFrom n).flatMap fun p =>
          objectDrawCmds camera p.1 p.2).filterMap bindSlotOf =
        (objects.enumFrom n).map Prod.fst := by
  intro objects
  induction objects with
  | nil => intro n; rfl
  | cons o rest ih =>
    intro n
    simp only [List.enumFrom_cons, List.flatMap_cons, List.filterMap_append,
      List.map_cons, ih (n + 1)]
    rfl

theorem flatMap_filterMap_uniforms (camera : PerspectiveCamera) :
    ∀ (objects : List Object) (n : Nat),
      ((objects.enumFrom n).flatMap fun p =>
          objectDrawCmds camera p.1 p.2).filterMap uniformOf =
        objects.flatMap (objectUniforms camera) := by
  intro objects
  induction objects with
  | nil => intro n; rfl
  | cons o rest ih =>
    intro n
    simp only [List.enumFrom_cons, List.flatMap_cons, List.filterMap_append,
      ih (n + 1)]
    rfl

theorem flatMap_filterMap_draws (camera : PerspectiveCamera) :
    ∀ (objects : List Object) (n : Nat),
      ((objects.enumFrom n).flatMap fun p =>
          objectDrawCmds camera p.1 p.2).filterMap drawOf =
        objects.map (fun o => ((0 : Int), 3 * o.num_faces)) := by
  intro objects
  induction objects with
  | nil => intro n; rfl
  | cons o rest ih =>
    intro n
    simp only [List.enumFrom_cons, List.flatMap_cons, List.filterMap_append,
      List.map_cons, ih (n + 1)]
    rfl

theorem objectBlock_isInfix (camera : PerspectiveCamera) :
    ∀ (objects : List Object) (n i : Nat) (obj : Object),
      objects[i]? = some obj →
      (objectDrawCmds camera (n + i) obj).IsInfix
        ((objects.enumFrom n).flatMap fun p =>
          objectDrawCmds camera p.1 p.2) := by
  intro objects
  induction objects with
  | nil => intro n i obj h; simp at h
  | cons o rest ih =>
    intro n i obj h
    cases i with
    | zero =>
      simp only [List.getElem?_cons_zero, Option.some.injEq] at h
      subst h
      exact ⟨[], rest.enumFrom (n + 1) |>.flatMap fun p =>
        objectDrawCmds camera p.1 p.2, by
          simp [List.enumFrom_cons, List.flatMap_cons]⟩
    | succ i =>
      simp only [List.getElem?_cons_succ] at h
      obtain ⟨pre, post, heq⟩ := ih (n + 1) i obj h
      refine ⟨objectDrawCmds camera n o ++ pre, post, ?_⟩
      have hn : n + (i + 1) = n + 1 + i := by omega
      rw [hn]
      simp only [List.enumFrom_cons, List.flatMap_cons, ← heq,
        List.append_assoc]

/-- C2: for a bound scene, the trace of `render_objects` binds geometry
slots 0..N-1 in exactly that order (one bind per object), uploads for each
object exactly the four uniforms - model matrix to location 0, view matrix
to 1, projection matrix to 2, and the smoothness float (1 if the flag is
set, else 0) to 3, in list order - issues one triangle draw of
`3 * num_faces` vertices starting at 0 per object in list order, and for
every index `i` the six-command block for object `i` occurs contiguously in
the trace. -/
theorem render_objects_per_object_protocol (raster : Raster) (w : World)
    (camera : PerspectiveCamera) (s : Scene)
    (hs : w.renderer.scene = some s) :
    ∃ w' cmds, renderObjects raster w camera = some (w', cmds) ∧
      cmds.filterMap bindSlotOf = List.range s.objects.length ∧
      cmds.filterMap uniformOf = s.objects.flatMap (objectUniforms camera) ∧
      cmds.filterMap drawOf =
        s.objects.map (fun o => ((0 : Int), 3 * o.num_faces)) ∧
      (∀ i obj, s.objects[i]? = some obj →
        (objectDrawCmds camera i obj).IsInfix cmds) := by
  refine ⟨_, _, renderObjects_eq raster w camera s hs, ?_, ?_, ?_, ?_⟩
  · show (_ ++ (s.objects.enumFrom 0).flatMap _).filterMap _ = _
    rw [List.filterMap_append, flatMap_filterMap_bindSlots camera s.objects 0,
      List.enumFrom_map_fst, ← List.range_eq_range']
    rfl
  · show (_ ++ (s.objects.enumFrom 0).flatMap _).filterMap _ = _
    rw [List.filterMap_append, flatMap_filterMap_uniforms camera s.objects 0]
    rfl
  · show (_ ++ (s.objects.enumFrom 0).flatMap _).filterMap _ = _
    rw [List.filterMap_append, flatMap_filterMap_draws camera s.objects 0]
    rfl
  · intro i obj h
    have hblk := objectBlock_isInfix camera s.objects 0 i obj h
    rw [Nat.zero_add] at hblk
    obtain ⟨pre, post, heq⟩ := hblk
    exact ⟨[Cmd.makeContextCurrent w.renderer.window,
      Cmd.viewport 0 0 w.renderer.width w.renderer.height, Cmd.clear,
      Cmd.clearColor ⟨0, 0, 0, 1⟩] ++ pre, post, by
        show _ = _ ++ (s.objects.enumFrom 0).flatMap _
        rw [← heq]
        simp [List.append_assoc]⟩

theorem render_objects_per_object_protocol_witness :
    world0.renderer.scene = some scene0 ∧
    (∃ w' cmds, renderObjects raster0 world0 camera0 = some (w', cmds) ∧
      cmds.filterMap bindSlotOf = List.range scene0.objects.length ∧
      cmds.filterMap uniformOf =
        scene0.objects.flatMap (objectUniforms camera0) ∧
      cmds.filterMap drawOf =
        scene0.objects.map (fun o => ((0 : Int), 3 * o.num_faces)) ∧
      (∀ i obj, scene0.objects[i]? = some obj →
        (objectDrawCmds camera0 i obj).IsInfix cmds)) :=
  ⟨rfl, render_objects_per_object_protocol raster0 world0 camera0 scene0 rfl⟩

/-! ## Program activation facts (C10) -/

theorem useDepth_notin_passCmds (window : Nat) (width height : Int)
    (camera : PerspectiveCamera) (objects : List Object) :
    Cmd.useDepthProgram ∉ passCmds window width height camera objects := by
  intro hmem
  unfold passCmds at hmem
  rw [List.mem_append] at hmem
  cases hmem with
  | inl h => simp at h
  | inr h =>
    rw [List.mem_flatMap] at h
    obtain ⟨p, _, hp⟩ := h
    simp [objectDrawCmds] at hp

theorem useDepth_notin_renderDepthMap (raster : Raster) (w : World)
    (camera : PerspectiveCamera) (dout : Nat → Nat → Int)
    (r : World × (Nat → Nat → Int) × List Cmd)
    (h : renderDepthMap raster w camera dout = some r) :
    Cmd.useDepthProgram ∉ r.2.2 := by
  cases hb : w.shouldClose with
  | true =>
    rw [renderDepthMap_closed_eq raster w camera dout hb] at h
    cases h
    simp
  | false =>
    cases hs : w.renderer.scene with
    | none =>
      rw [renderDepthMap, hb, renderObjects_none raster w camera hs] at h
      simp at h
    | some s =>
      rw [renderDepthMap_eq raster w camera s dout hb hs] at h
      cases h
      intro hmem
      unfold depthRunCmds at hmem
      rw [List.mem_append, List.mem_append] at hmem
      rcases hmem with (hmem | hmem) | hmem
      · simp at hmem
      · exact useDepth_notin_passCmds _ _ _ camera s.objects hmem
      · simp at hmem

theorem useDepth_notin_render (raster : Raster) (w : World)
    (camera : PerspectiveCamera) (cout : Nat → Nat → Nat → Int)
    (r : World × (Nat → Nat → Nat → Int) × List Cmd)
    (h : render raster w camera cout = some r) :
    Cmd.useDepthProgram ∉ r.2.2 := by
  cases hb : w.shouldClose with
  | true =>
    rw [render_closed_eq raster w camera cout hb] at h
    cases h
    simp
  | false =>
    cases hs : w.renderer.scene with
    | none =>
      rw [render, hb, renderObjects_none raster w camera hs] at h
      simp at h
    | some s =>
      rw [render_eq raster w camera s cout hb hs] at h
      cases h
      intro hmem
      unfold colorRunCmds at hmem
      rw [List.mem_append, List.mem_append] at hmem
      rcases hmem with (hmem | hmem) | hmem
      · simp at hmem
      · exact useDepth_notin_passCmds _ _ _ camera s.objects hmem
      · simp at hmem

/-- C10: the Depth shader pipeline is never activated by any operation -
`set_scene`, `render_objects`, the destructor, `render_depth_map`, `render`
and both scene-accepting overloads emit no `useDepthProgram` command -
while both `render_depth_map` and `render` activate the Main pipeline
whenever they proceed past the close check, so the depth readback comes
from the main pipeline's pass. -/
theorem depth_program_never_used :
    (∀ w s, Cmd.useDepthProgram ∉ (setScene w s).2) ∧
    (∀ w, Cmd.useDepthProgram ∉ (destructor w).2) ∧
    (∀ raster w camera r, renderObjects raster w camera = some r →
      Cmd.useDepthProgram ∉ r.2) ∧
    (∀ raster w camera dout r, renderDepthMap raster w camera dout = some r →
      Cmd.useDepthProgram ∉ r.2.2 ∧
      (w.shouldClose = false → Cmd.useMainProgram ∈ r.2.2)) ∧
    (∀ raster w camera cout r, render raster w camera cout = some r →
      Cmd.useDepthProgram ∉ r.2.2 ∧
      (w.shouldClose = false → Cmd.useMainProgram ∈ r.2.2)) ∧
    (∀ raster w s camera dout r,
      renderDepthMapWithScene raster w s camera dout = some r →
      Cmd.useDepthProgram ∉ r.2.2) ∧
    (∀ raster w s camera cout r,
      renderWithScene raster w s camera cout = some r →
      Cmd.useDepthProgram ∉ r.2.2) := by
  refine ⟨?_, ?_, ?_, ?_, ?_, ?_, ?_⟩
  · intro w s
    simp [setScene]
  · intro w
    simp [destructor]
  · intro raster w camera r h
    cases hs : w.renderer.scene with
    | none => rw [renderObjects_none raster w camera hs] at h; simp at h
    | some s =>
      rw [renderObjects_eq raster w camera s hs] at h
      cases h
      exact useDepth_notin_passCmds _ _ _ camera s.objects
  · intro raster w camera dout r h
    refine ⟨useDepth_notin_renderDepthMap raster w camera dout r h, ?_⟩
    intro hb
    cases hs : w.renderer.scene with
    | none =>
      rw [renderDepthMap, hb, renderObjects_none raster w camera hs] at h
      simp at h
    | some s =>
      rw [renderDepthMap_eq raster w camera s dout hb hs] at h
      cases h
      unfold depthRunCmds
      simp
  · intro raster w camera cout r h
    refine ⟨useDepth_notin_render raster w camera cout r h, ?_⟩
    intro hb
    cases hs : w.renderer.scene with
    | none =>
      rw [render, hb, renderObjects_none raster w camera hs] at h
      simp at h
    | some s =>
      rw [render_eq raster w camera s cout hb hs] at h
      cases h
      unfold colorRunCmds
      simp
  · intro raster w s camera dout r h
    unfold renderDepthMapWithScene at h
    cases hd : renderDepthMap raster (setScene w s).1 camera dout with
    | none => rw [hd, Option.map_none'] at h; exact Option.noConfusion h
    | some a =>
      rw [hd] at h
      simp only [Option.map_some', Option.some.injEq] at h
      subst h
      intro hmem
      rw [List.mem_append] at hmem
      cases hmem with
      | inl hm => simp [setScene] at hm
      | inr hm =>
        exact useDepth_notin_renderDepthMap raster (setScene w s).1 camera
          dout a hd hm
  · intro raster w s camera cout r h
    unfold renderWithScene at h
    cases hd : render raster (setScene w s).1 camera cout with
    | none => rw [hd, Option.map_none'] at h; exact Option.noConfusion h
    | some a =>
      rw [hd] at h
      simp only [Option.map_some', Option.some.injEq] at h
      subst h
      intro hmem
      rw [List.mem_append] at hmem
      cases hmem with
      | inl hm => simp [setScene] at hm
      | inr hm =>
        exact useDepth_notin_render raster (setScene w s).1 camera cout a
          hd hm

theorem depth_program_never_used_witness :
    world0.shouldClose = false ∧
    (Cmd.useDepthProgram ∉
        ((renderDepthMap raster0 world0 camera0 dout0).get (by rfl)).2.2 ∧
      (world0.shouldClose = false → Cmd.useMainProgram ∈
        ((renderDepthMap raster0 world0 camera0 dout0).get (by rfl)).2.2)) :=
  ⟨rfl, depth_program_never_used.2.2.2.1 raster0 world0 camera0 dout0 _
    (Option.some_get (by rfl)).symm⟩

/-! ## Clear-color bookkeeping (C4) -/

/-- Replays a trace against the GL clear-color state machine, recording,
for each `glClear` command, the clear-color state in effect when it
executes (`glClearColor` updates the state for later clears only). -/
def clearColorAtClears (st : RGBA) : List Cmd → List RGBA
  | [] => []
  | Cmd.clear :: rest => st :: clearColorAtClears st rest
  | Cmd.clearColor c :: rest => clearColorAtClears c rest
  | _ :: rest => clearColorAtClears st rest

theorem clearColorAtClears_flatMap (camera : PerspectiveCamera) :
    ∀ (objects : List Object) (n : Nat) (st : RGBA),
      clearColorAtClears st ((objects.enumFrom n).flatMap fun p =>
        objectDrawCmds camera p.1 p.2) = [] := by
  intro objects
  induction objects with
  | nil => intro n st; rfl
  | cons o rest ih =>
    intro n st
    show clearColorAtClears st
      (objectDrawCmds camera n o ++ (rest.enumFrom (n + 1)).flatMap fun p =>
        objectDrawCmds camera p.1 p.2) = []
    show clearColorAtClears st ((rest.enumFrom (n + 1)).flatMap fun p =>
      objectDrawCmds camera p.1 p.2) = []
    exact ih (n + 1) st

/-- C4 counterexample: on the first pass in a fresh GL context, the
`glClear` of `render_objects` executes while the clear-color state is still
the GL default (0,0,0,0) - not (0,0,0,1), because
`glClearColor(0.0,0.0,0.0,1.0)` is issued on the line after `glClear`. -/
theorem render_objects_first_clear_uses_default_clear_color :
    renderObjects raster0 world0 camera0 =
      some (passWorld raster0 world0 camera0 scene0,
            passCmds 1 2 2 camera0 [obj0]) ∧
    clearColorAtClears world0.gl.clearColor (passCmds 1 2 2 camera0 [obj0]) =
      [⟨0, 0, 0, 0⟩] ∧
    (⟨0, 0, 0, 0⟩ : RGBA) ≠ ⟨0, 0, 0, 1⟩ := by
  refine ⟨renderObjects_eq raster0 world0 camera0 scene0 rfl, rfl, by decide⟩

/-- C4 amended: in every `render_objects` pass, the single clear executes
with the clear-color state in effect at entry - the GL default (0,0,0,0)
on a fresh context's first pass, and (0,0,0,1) on every later pass, since
the pass leaves the state at (0,0,0,1) - the depth attachment clears to
the (never changed) default full depth, the viewport is set to
(0,0,width,height) before the loop, and for a scene with zero objects the
frame holds exactly the clear values after the pass. -/
theorem render_objects_clear_semantics (raster : Raster) (w : World)
    (camera : PerspectiveCamera) (s : Scene)
    (hs : w.renderer.scene = some s) :
    ∃ w' cmds, renderObjects raster w camera = some (w', cmds) ∧
      clearColorAtClears w.gl.clearColor cmds = [w.gl.clearColor] ∧
      w'.gl.clearColor = ⟨0, 0, 0, 1⟩ ∧
      w'.gl.viewport = (0, 0, w.renderer.width, w.renderer.height) ∧
      (s.objects = [] →
        w'.gl.frame.rgb = (fun _ _ => w.gl.clearColor.rgb) ∧
        w'.gl.frame.depth = (fun _ _ => clearDepthDefault)) := by
  refine ⟨_, _, renderObjects_eq raster w camera s hs, ?_, rfl, rfl, ?_⟩
  · have hstep : clearColorAtClears w.gl.clearColor
        (passCmds w.renderer.window w.renderer.width w.renderer.height
          camera s.objects) =
        w.gl.clearColor :: clearColorAtClears ⟨0, 0, 0, 1⟩
          ((s.objects.enumFrom 0).flatMap fun p =>
            objectDrawCmds camera p.1 p.2) := rfl
    rw [hstep, clearColorAtClears_flatMap camera s.objects 0]
  · intro hobj
    show (passFrameBuffer raster w.gl.clearColor w.renderer.vao camera
        s.objects).rgb = _ ∧
      (passFrameBuffer raster w.gl.clearColor w.renderer.vao camera
        s.objects).depth = _
    rw [hobj]
    exact ⟨rfl, rfl⟩

theorem render_objects_clear_semantics_witness :
    worldEmpty.renderer.scene = some sceneEmpty ∧
    (∃ w' cmds, renderObjects raster0 worldEmpty camera0 = some (w', cmds) ∧
      clearColorAtClears worldEmpty.gl.clearColor cmds =
        [worldEmpty.gl.clearColor] ∧
      w'.gl.clearColor = ⟨0, 0, 0, 1⟩ ∧
      w'.gl.viewport =
        (0, 0, worldEmpty.renderer.width, worldEmpty.renderer.height) ∧
      (sceneEmpty.objects = [] →
        w'.gl.frame.rgb = (fun _ _ => worldEmpty.gl.clearColor.rgb) ∧
        w'.gl.frame.depth = (fun _ _ => clearDepthDefault))) :=
  ⟨rfl, render_objects_clear_semantics raster0 worldEmpty camera0 sceneEmpty
    rfl⟩

/-! ## Determinism (C8) -/

theorem flip_index3_lt (H W h v c : Nat) (hh : h < H) (hv : v < W)
    (hc : c < 3) : (H - h - 1) * W * 3 + v * 3 + c < H * W * 3 := by
  have h1 := Nat.mul_le_mul_right W (show (H - h - 1) + 1 ≤ H by omega)
  have h2 : ((H - h - 1) + 1) * W = (H - h - 1) * W + W := by ring
  omega

/-- The color readback after a pass depends on the prior world only through
the renderer fields and the RGB part of the clear-color state, on every
in-range index. -/
theorem colorRunBuf_congr (raster : Raster) (w w' : World)
    (camera : PerspectiveCamera) (s : Scene)
    (hren : w'.renderer = w.renderer)
    (hrgb : w'.gl.clearColor.rgb = w.gl.clearColor.rgb) :
    ∀ i, i < w.renderer.height.toNat * w.renderer.width.toNat * 3 →
      colorRunBuf raster w camera s i = colorRunBuf raster w' camera s i := by
  intro i hi
  unfold colorRunBuf colorReadback
  rw [hren]
  have hfb : passFrameBuffer raster w'.gl.clearColor w.renderer.vao camera
      s.objects =
      passFrameBuffer raster w.gl.clearColor w.renderer.vao camera
        s.objects := by
    unfold passFrameBuffer
    rw [hrgb]
  rw [hfb, if_pos hi, if_pos hi]

/-- C8: two consecutive `render` calls with the same scene and camera and
no intervening mutation write bit-identical contents into the output
buffer.  The hypothesis `clearColor.rgb = (0,0,0)` holds in every reachable
state: a fresh context starts at the default (0,0,0,0) and every pass
leaves (0,0,0,1) - the conjunct about `w1` shows it is maintained. -/
theorem render_deterministic (raster : Raster) (w : World)
    (camera : PerspectiveCamera) (s : Scene)
    (out1 out2 : Nat → Nat → Nat → Int)
    (hclose : w.shouldClose = false) (hs : w.renderer.scene = some s)
    (hrgb : w.gl.clearColor.rgb = ⟨0, 0, 0⟩) :
    ∃ w1 r1 t1 w2 r2 t2,
      render raster w camera out1 = some (w1, r1, t1) ∧
      render raster w1 camera out2 = some (w2, r2, t2) ∧
      w1.gl.clearColor.rgb = ⟨0, 0, 0⟩ ∧
      (∀ h v c, h < w.renderer.height.toNat →
        v < w.renderer.width.toNat → c < 3 → r1 h v c = r2 h v c) := by
  refine ⟨_, _, _, _, _, _, render_eq raster w camera s out1 hclose hs,
    render_eq raster (colorRunWorld raster w camera s) camera s out2 hclose
      hs, rfl, ?_⟩
  intro h v c hh hv hc
  show flipCopyColor w.renderer.height.toNat w.renderer.width.toNat
      (colorRunBuf raster w camera s) out1 h v c =
    flipCopyColor w.renderer.height.toNat w.renderer.width.toNat
      (colorRunBuf raster (colorRunWorld raster w camera s) camera s) out2
      h v c
  unfold flipCopyColor
  rw [if_pos ⟨hh, hv, hc⟩, if_pos ⟨hh, hv, hc⟩]
  exact colorRunBuf_congr raster w (colorRunWorld raster w camera s) camera
    s rfl (by rw [hrgb]; rfl) _
    (flip_index3_lt _ _ h v c hh hv hc)

theorem render_deterministic_witness :
    world0.shouldClose = false ∧ world0.renderer.scene = some scene0 ∧
    world0.gl.clearColor.rgb = ⟨0, 0, 0⟩ ∧
    (∃ w1 r1 t1 w2 r2 t2,
      render raster0 world0 camera0 cout0 = some (w1, r1, t1) ∧
      render raster0 w1 camera0 cout1 = some (w2, r2, t2) ∧
      w1.gl.clearColor.rgb = ⟨0, 0, 0⟩ ∧
      (∀ h v c, h < world0.renderer.height.toNat →
        v < world0.renderer.width.toNat → c < 3 →
        r1 h v c = r2 h v c)) :=
  ⟨rfl, rfl, rfl, render_deterministic raster0 world0 camera0 scene0 cout0
    cout1 rfl rfl rfl⟩

end Three
